import Mathlib

/-!
Verification development for the LLM Security Helper application
(`src/app.py`), a single-script Streamlit front end around the Google
Gemini API.  The script is embedded shallowly:

* the remote Gemini service is a `RemoteEnv` record of pure functions
  describing, for each model name, whether `genai.GenerativeModel` raises,
  what `generate_content("Hi")` does (raise, or return a response of a
  given truthiness), and what `genai.list_models()` returns;
* the startup model-resolution block (app.py lines 37-107) becomes
  `resolveLoopTrace` / `resolveModelTrace` / `startup`, each also
  returning the list of remote calls they issue, in order;
* the two prompt f-strings (lines 143-173 and 222-275) become
  `codeAnalysisPrompt` / `specAnalysisPrompt`, with the fixed template
  pieces transcribed byte for byte (`\x27` is the apostrophe);
* the per-tab submit handlers (lines 136-185 and 215-287) become
  `tab1Submit` / `tab2Submit` / `handleRequest` / `runRequests`.
-/

namespace SecurityHelperApp

/-- One entry of `genai.list_models()`: a model name plus the list of
generation methods the service reports for it (app.py lines 72-74). -/
structure GModelInfo where
  name : String
  supported_generation_methods : List String
deriving DecidableEq

/-- The remote Gemini service as the script can observe it.
`instantiateOk n` is true when `genai.GenerativeModel(n)` returns normally
(false: it raises).  `probe n` describes `generate_content("Hi")` on that
model: `Except.error e` when the call raises `e`, `Except.ok b` when it
returns a response whose Python truthiness is `b` (line 62 tests
`if test_response:`).  `list_models` is what `genai.list_models()` yields. -/
structure RemoteEnv where
  instantiateOk : String → Bool
  probe : String → Except String Bool
  list_models : List GModelInfo

/-- The outbound remote-API calls the script can make. -/
inductive NetCall where
  | configure (key : String)
  | instantiate (name : String)
  | probe (name : String)
  | listModels
deriving DecidableEq

/-- Truthiness of the probe on candidate `c`: the probe returned normally
and the response was truthy; a raised exception counts as false. -/
def probeTruthy (env : RemoteEnv) (c : String) : Bool :=
  match env.probe c with
  | Except.ok b => b
  | Except.error _ => false

/-- The loop body test for one candidate (app.py lines 58-65): the
candidate is accepted when instantiation succeeds and the liveness probe
returns a truthy response.  Any exception from either step is swallowed by
the `except Exception: continue` at lines 66-67. -/
def tryCandidate (env : RemoteEnv) (c : String) : Bool :=
  env.instantiateOk c && probeTruthy env c

/-- Remote calls issued while attempting one candidate: instantiation is
always attempted; `generate_content` runs only if instantiation did not
raise (lines 59-61). -/
def attemptCalls (env : RemoteEnv) (c : String) : List NetCall :=
  if env.instantiateOk c then [NetCall.instantiate c, NetCall.probe c]
  else [NetCall.instantiate c]

/-- The calls issued for a sequence of candidates, in order. -/
def attemptsOf (env : RemoteEnv) : List String → List NetCall
  | [] => []
  | c :: rest => attemptCalls env c ++ attemptsOf env rest

/-- The `for model_attempt in models_to_try` loop (app.py lines 56-67):
first component is the selected model name (`none` when every candidate was
unusable), second the remote calls issued, in order.  The loop `break`s at
the first accepted candidate. -/
def resolveLoopTrace (env : RemoteEnv) : List String → Option String × List NetCall
  | [] => (none, [])
  | c :: rest =>
    if tryCandidate env c then (some c, attemptCalls env c)
    else ((resolveLoopTrace env rest).1, attemptCalls env c ++ (resolveLoopTrace env rest).2)

/-- The discovery listing (app.py lines 71-74): names of the models whose
`supported_generation_methods` contain the string `generateContent`, in the
order the service returned them. -/
def availableModels (env : RemoteEnv) : List String :=
  ((env.list_models.filter
      (fun m => m.supported_generation_methods.contains ("generateContent"))).map
    (fun m => m.name))

/-- Terminal resolution failure (app.py line 82 raises
`Exception("No compatible models found")`). -/
inductive ResolveError where
  | noCompatibleModels
deriving DecidableEq

/-- The whole resolution block (app.py lines 42-82): run the candidate
loop; if it found nothing, fall back to discovery and take the first
capability-qualified model (lines 76-79) - instantiating it but issuing no
liveness probe against it - and raise `noCompatibleModels` when discovery
is empty.  `genai.GenerativeModel` on a discovery-returned canonical name
performs no I/O and is modelled as returning normally.  The second
component is the full ordered remote-call trace. -/
def resolveModelTrace (env : RemoteEnv) (candidates : List String) :
    Except ResolveError String × List NetCall :=
  match (resolveLoopTrace env candidates).1 with
  | some c => (Except.ok c, (resolveLoopTrace env candidates).2)
  | none =>
    match availableModels env with
    | [] => (Except.error ResolveError.noCompatibleModels,
        (resolveLoopTrace env candidates).2 ++ [NetCall.listModels])
    | n :: _ => (Except.ok n,
        (resolveLoopTrace env candidates).2 ++ [NetCall.listModels, NetCall.instantiate n])

/-- The ordered preference list of app.py lines 46-54. -/
def models_to_try : List String :=
  ["gemini-pro", "gemini-1.5-pro", "gemini-1.5-flash", "gemini-1.0-pro",
   "models/gemini-pro", "models/gemini-1.5-pro", "models/gemini-1.5-flash"]

/-- How the top of the script can end: `st.stop()` at line 35 (API key
missing or empty), `st.stop()` at line 107 after the except block at lines
87-106 showed `Error initializing Gemini API: ...`, or reaching the tabs
with a resolved model name. -/
inductive StartupOutcome where
  | haltedMissingCredential
  | haltedInitError (msg : String)
  | ready (model_name : String)
deriving DecidableEq

/-- Startup (app.py lines 23-107).  `apiKey` is `os.getenv("GEMINI_API_KEY")`
(`none` when the variable is unset).  Line 30 tests
`not GEMINI_API_KEY or GEMINI_API_KEY == ""`, which for a string holds
exactly when it is the empty string; on that path the script stops before
`genai.configure` and before any remote call.  Otherwise `genai.configure`
runs and resolution proceeds; the debug `genai.list_models()` of the
except block (line 94) is appended on the failure path. -/
def startup (env : RemoteEnv) (apiKey : Option String) : StartupOutcome × List NetCall :=
  match apiKey with
  | none => (StartupOutcome.haltedMissingCredential, [])
  | some k =>
    if k = "" then (StartupOutcome.haltedMissingCredential, [])
    else
      match (resolveModelTrace env models_to_try).1 with
      | Except.ok n =>
          (StartupOutcome.ready n,
           NetCall.configure k :: (resolveModelTrace env models_to_try).2)
      | Except.error _ =>
          (StartupOutcome.haltedInitError ("No compatible models found"),
           NetCall.configure k :: ((resolveModelTrace env models_to_try).2 ++ [NetCall.listModels]))

/-- The candidate loop selects exactly what `List.find?` selects: the first
candidate in list order that `tryCandidate` accepts. -/
lemma resolveLoop_fst (env : RemoteEnv) (l : List String) :
    (resolveLoopTrace env l).1 = l.find? (tryCandidate env) := by
  induction l with
  | nil => rfl
  | cons c rest ih =>
    by_cases h : tryCandidate env c
    · simp [resolveLoopTrace, h, List.find?_cons_of_pos]
    · simp [resolveLoopTrace, h, List.find?_cons_of_neg, ih]

/-- When the loop finds `c`, its call trace is the attempts on the rejected
candidates before `c` followed by the attempt on `c` - nothing after `c`
is attempted. -/
lemma resolveLoop_snd_found (env : RemoteEnv) (l : List String) (c : String)
    (h : l.find? (tryCandidate env) = some c) :
    (resolveLoopTrace env l).2 =
      attemptsOf env (l.takeWhile (fun x => !tryCandidate env x)) ++ attemptCalls env c := by
  induction l with
  | nil => simp at h
  | cons d rest ih =>
    by_cases hd : tryCandidate env d
    · rw [List.find?_cons_of_pos _ hd] at h
      obtain rfl : d = c := by injection h
      simp [resolveLoopTrace, hd, attemptsOf]
    · rw [List.find?_cons_of_neg _ hd] at h
      simp only [resolveLoopTrace, hd, if_neg, Bool.not_eq_true, ite_false]
      rw [ih h]
      have : (d :: rest).takeWhile (fun x => !tryCandidate env x)
          = d :: rest.takeWhile (fun x => !tryCandidate env x) := by
        simp [List.takeWhile_cons, hd]
      rw [this]
      simp [attemptsOf, List.append_assoc]

/-- Every element of an attempt concerns the attempted candidate itself. -/
lemma mem_attemptCalls (env : RemoteEnv) (c : String) (x : NetCall)
    (h : x ∈ attemptCalls env c) :
    x = NetCall.instantiate c ∨ x = NetCall.probe c := by
  unfold attemptCalls at h
  by_cases hi : env.instantiateOk c <;> simp [hi] at h <;> tauto

/-- A liveness probe recorded by the candidate loop always targets a member
of the candidate list. -/
lemma probe_mem_loop (env : RemoteEnv) (l : List String) (n : String)
    (h : NetCall.probe n ∈ (resolveLoopTrace env l).2) : n ∈ l := by
  induction l with
  | nil => simp [resolveLoopTrace] at h
  | cons c rest ih =>
    by_cases hc : tryCandidate env c
    · simp only [resolveLoopTrace, hc, if_pos] at h
      rcases mem_attemptCalls env c _ h with h' | h'
      · exact absurd h' (by simp)
      · simp at h'
        simp [h']
    · simp only [resolveLoopTrace, hc, if_neg, Bool.not_eq_true] at h
      rcases List.mem_append.mp h with h' | h'
      · rcases mem_attemptCalls env c _ h' with h'' | h''
        · exact absurd h'' (by simp)
        · simp at h''
          simp [h'']
      · exact List.mem_cons_of_mem _ (ih h')

/-- When every candidate fails, the loop selects nothing. -/
lemma resolveLoop_fst_none (env : RemoteEnv) (l : List String)
    (h : ∀ c ∈ l, tryCandidate env c = false) :
    (resolveLoopTrace env l).1 = none := by
  rw [resolveLoop_fst]
  exact List.find?_eq_none.mpr (fun x hx => by simp [h x hx])

/-- The fixed options of the language selectbox (app.py lines 131-134). -/
inductive Language where
  | python
  | javascript
  | java
  | csharp
  | php
  | ruby
  | go
  | sql
  | other
deriving DecidableEq, Fintype

/-- The label each selectbox option carries, exactly as listed at
app.py line 133. -/
def Language.label : Language → String
  | Language.python => "Python"
  | Language.javascript => "JavaScript"
  | Language.java => "Java"
  | Language.csharp => "C#"
  | Language.php => "PHP"
  | Language.ruby => "Ruby"
  | Language.go => "Go"
  | Language.sql => "SQL"
  | Language.other => "Other"

/-- The fixed options of the application-type selectbox
(app.py lines 209-213). -/
inductive AppType where
  | chatbot
  | codeGeneration
  | contentGenerator
  | dataAnalysis
  | ragBased
  | multiAgent
  | other
deriving DecidableEq, Fintype

/-- The label each application-type option carries, exactly as listed at
app.py lines 211-212. -/
def AppType.label : AppType → String
  | AppType.chatbot => "Chatbot/Virtual Assistant"
  | AppType.codeGeneration => "Code Generation Tool"
  | AppType.contentGenerator => "Content Generator"
  | AppType.dataAnalysis => "Data Analysis Agent"
  | AppType.ragBased => "RAG-based System"
  | AppType.multiAgent => "Multi-Agent System"
  | AppType.other => "Other"

/-- Template text of the code-analysis f-string (app.py line 143 up to
`{language}`); the trailing space before the newline is in the source. -/
def codeTplA : String :=
  "You are a security expert analyzing code for vulnerabilities. \n\nAnalyze the following "

/-- Template text between `{language}` and `{language.lower()}`
(app.py lines 145-147). -/
def codeTplB : String :=
  " code and identify ALL security vulnerabilities:\n\n```"

/-- Template text between `{code_input}` and the second
`{language.lower()}` (app.py lines 149-168). -/
def codeTplC : String :=
  "\n```\n\nProvide your analysis in the following format:\n\n## Security Vulnerabilities Found\n\nFor each vulnerability:\n### [Vulnerability Number]. [Vulnerability Name]\n- **Severity**: [Critical/High/Medium/Low]\n- **Description**: [Detailed explanation of the vulnerability]\n- **Attack Vector**: [How an attacker could exploit this]\n- **Impact**: [What could happen if exploited]\n\n## Recommended Fixes\n\nFor each vulnerability, provide:\n### Fix for [Vulnerability Name]\n- **Solution**: [Detailed explanation of how to fix it]\n- **Secure Code Example**:\n```"

/-- Template text after the second `{language.lower()}`
(app.py lines 168-173). -/
def codeTplD : String :=
  "\n[Provide the corrected, secure version of the code]\n```\n- **Additional Best Practices**: [Any related security recommendations]\n\nFocus ONLY on security issues, not general code quality or refactoring suggestions."

/-- The code-analysis prompt f-string (app.py lines 143-173): pure
interpolation of the language label, its lowercasing, and the user code
into the fixed template. -/
def codeAnalysisPrompt (language : Language) (code_input : String) : String :=
  codeTplA ++ language.label ++ codeTplB ++ language.label.toLower ++ "\n" ++
    code_input ++ codeTplC ++ language.label.toLower ++ codeTplD

/-- Template text of the spec-analysis f-string up to `{app_type}`
(app.py lines 222-224). -/
def specTplA : String :=
  "You are a GenAI security expert specializing in OWASP LLM Top 10 and ATLAS (Adversarial Threat Landscape for AI Systems) frameworks.\n\nAnalyze the following "

/-- Template text between `{app_type}` and `{spec_input}`
(app.py lines 224-226). -/
def specTplB : String :=
  " specification for security vulnerabilities:\n\nAPPLICATION SPECIFICATION:\n"

/-- Template text after `{spec_input}` (app.py lines 227-275); `\x27` is
the apostrophe of `it's` at line 272. -/
def specTplC : String :=
  "\n\nProvide a comprehensive security analysis using BOTH frameworks:\n\n## OWASP LLM Top 10 Vulnerabilities Analysis\n\nFor each applicable vulnerability from the OWASP LLM Top 10, provide:\n\n### [OWASP-XX]: [Vulnerability Name]\n- **Risk Level**: [Critical/High/Medium/Low]\n- **Specific to this application**: [Explain exactly how this vulnerability applies to the described app]\n- **Attack Scenario**: [Concrete example of how an attacker could exploit this in THIS specific application]\n- **Mitigation Strategies**: [Specific, actionable steps to address this vulnerability]\n\nThe OWASP LLM Top 10 includes:\n1. LLM01: Prompt Injection\n2. LLM02: Insecure Output Handling\n3. LLM03: Training Data Poisoning\n4. LLM04: Model Denial of Service\n5. LLM05: Supply Chain Vulnerabilities\n6. LLM06: Sensitive Information Disclosure\n7. LLM07: Insecure Plugin Design\n8. LLM08: Excessive Agency\n9. LLM09: Overreliance\n10. LLM10: Model Theft\n\n## ATLAS Framework Analysis\n\nAnalyze using the ATLAS (Adversarial Threat Landscape for AI Systems) perspective:\n\n### Data Poisoning Threats\n[Specific risks and mitigations]\n\n### Evasion Attacks\n[Specific risks and mitigations]\n\n### Model Inversion/Extraction\n[Specific risks and mitigations]\n\n### Adversarial Examples\n[Specific risks and mitigations]\n\n## Priority Action Items\n\nList the top 5 most critical vulnerabilities to address first, ranked by:\n1. [Vulnerability name] - [Why it\x27s critical for this app] - [Quick win mitigation]\n2. ...\n\nBe specific, actionable, and clear. Every recommendation should be directly applicable to the described application."

/-- The spec-analysis prompt f-string (app.py lines 222-275). -/
def specAnalysisPrompt (app_type : AppType) (spec_input : String) : String :=
  specTplA ++ app_type.label ++ specTplB ++ spec_input ++ specTplC

/-- Python's `not s.strip()` for the submit guards (app.py lines 137 and
216): `strip` removes leading and trailing whitespace, so the stripped
string is empty (falsy) exactly when every character of `s` is whitespace;
the empty string qualifies vacuously. -/
def stripIsEmpty (s : String) : Bool := s.data.all Char.isWhitespace

/-- What one analysis attempt shows the user: the rendered response text
(lines 179-181 / 281-283) or the inline error of the except block
(lines 183-185 / 285-287). -/
inductive AnalysisResult where
  | success (text : String)
  | failure (msg : String)
deriving DecidableEq

/-- One `model.generate_content(prompt)` call wrapped in the tab's
`try/except` (app.py lines 141-185): `generate` is the remote call (error
value = the raised exception's `str(e)`).  Returns the result together
with the list of prompts actually dispatched - always exactly one, no
retry - and never propagates an exception. -/
def invokeAnalysis (generate : String → Except String String) (prompt : String) :
    AnalysisResult × List String :=
  match generate prompt with
  | Except.ok t => (AnalysisResult.success t, [prompt])
  | Except.error e => (AnalysisResult.failure ("Error during analysis: " ++ e), [prompt])

/-- Outcome of pressing a tab's analyze button: the warning of the empty
guard, or an analysis result. -/
inductive SubmitOutcome where
  | warned (msg : String)
  | analyzed (r : AnalysisResult)
deriving DecidableEq

/-- The tab-1 button handler (app.py lines 136-185): reject blank input
with the warning before any prompt is built, otherwise build the code
prompt and invoke the model once. -/
def tab1Submit (generate : String → Except String String) (language : Language)
    (code_input : String) : SubmitOutcome × List String :=
  if stripIsEmpty code_input then
    (SubmitOutcome.warned ("Please enter some code to analyze."), [])
  else
    (SubmitOutcome.analyzed (invokeAnalysis generate (codeAnalysisPrompt language code_input)).1,
     (invokeAnalysis generate (codeAnalysisPrompt language code_input)).2)

/-- The tab-2 button handler (app.py lines 215-287). -/
def tab2Submit (generate : String → Except String String) (app_type : AppType)
    (spec_input : String) : SubmitOutcome × List String :=
  if stripIsEmpty spec_input then
    (SubmitOutcome.warned ("Please enter your application specifications."), [])
  else
    (SubmitOutcome.analyzed (invokeAnalysis generate (specAnalysisPrompt app_type spec_input)).1,
     (invokeAnalysis generate (specAnalysisPrompt app_type spec_input)).2)

/-- The process-wide resolved state: the `model_name` fixed at startup
(app.py lines 42-85); the opaque handle is `genai.GenerativeModel` of this
name. -/
structure AppContext where
  model_name : String
deriving DecidableEq

/-- A user action: submitting one of the two forms. -/
inductive Request where
  | codeReq (language : Language) (text : String)
  | specReq (app_type : AppType) (text : String)

/-- Handling one user action: both tabs call `model.generate_content`
(lines 176 and 278) on the handle resolved at startup; neither handler
assigns `model` or `model_name`.  `generate m p` is the remote call on
model `m` with prompt `p`; the trace records (model used, prompt sent). -/
def handleRequest (generate : String → String → Except String String)
    (ctx : AppContext) (req : Request) :
    AppContext × SubmitOutcome × List (String × String) :=
  match req with
  | Request.codeReq l c =>
      (ctx, (tab1Submit (generate ctx.model_name) l c).1,
       ((tab1Submit (generate ctx.model_name) l c).2).map (fun p => (ctx.model_name, p)))
  | Request.specReq a s =>
      (ctx, (tab2Submit (generate ctx.model_name) a s).1,
       ((tab2Submit (generate ctx.model_name) a s).2).map (fun p => (ctx.model_name, p)))

/-- A whole session after startup: requests handled in order, each against
the state the previous one left behind; the trace collects every
(model, prompt) dispatched. -/
def runRequests (generate : String → String → Except String String)
    (ctx : AppContext) : List Request → AppContext × List (String × String)
  | [] => (ctx, [])
  | r :: rs =>
      ((runRequests generate (handleRequest generate ctx r).1 rs).1,
       (handleRequest generate ctx r).2.2 ++
         (runRequests generate (handleRequest generate ctx r).1 rs).2)

/-- The whole process: startup, then - only when startup reached the tabs -
the user's requests.  `st.stop()` (lines 35 and 107) halts the script, so a
halted startup dispatches nothing. -/
def appRun (env : RemoteEnv) (generate : String → String → Except String String)
    (apiKey : Option String) (reqs : List Request) :
    StartupOutcome × List (String × String) :=
  match (startup env apiKey).1 with
  | StartupOutcome.ready n => (StartupOutcome.ready n, (runRequests generate ⟨n⟩ reqs).2)
  | o => (o, [])

/-- The character prefix of the code prompt up to and including the fixed
text that follows the language label. -/
def codeHead (l : Language) : List Char :=
  codeTplA.data ++ (l.label.data ++ codeTplB.data)

/-- Shape of the code prompt as character data: head (ending in the
template text after the label), then the lowered label, a newline, the
user code, and the fixed tail with the second lowered label. -/
lemma codePrompt_data (l : Language) (c : String) :
    (codeAnalysisPrompt l c).data =
      codeHead l ++ (l.label.toLower.data ++ (("\n").data ++ (c.data ++
        (codeTplC.data ++ (l.label.toLower.data ++ codeTplD.data))))) := by
  simp [codeAnalysisPrompt, codeHead, String.data_append]

set_option maxRecDepth 4000 in
/-- The code-prompt head is at least 100 characters for every label. -/
lemma codeHead_len (l : Language) : 100 ≤ (codeHead l).length := by
  cases l <;> decide

/-- The first 100 characters of a code prompt depend only on the label. -/
lemma codePrompt_take (l : Language) (c : String) :
    ((codeAnalysisPrompt l c).data).take 100 = (codeHead l).take 100 := by
  rw [codePrompt_data]
  exact List.take_append_of_le_length (codeHead_len l)

set_option maxRecDepth 8000 in
/-- The first 100 characters of the code-prompt head distinguish all nine
language labels. -/
lemma codeHead_take_inj :
    ∀ l₁ l₂ : Language, (codeHead l₁).take 100 = (codeHead l₂).take 100 → l₁ = l₂ := by
  decide

/-- The character prefix of the spec prompt up to and including the fixed
text that follows the application-type label. -/
def specHead (a : AppType) : List Char :=
  specTplA.data ++ (a.label.data ++ specTplB.data)

/-- Shape of the spec prompt as character data. -/
lemma specPrompt_data (a : AppType) (s : String) :
    (specAnalysisPrompt a s).data = specHead a ++ (s.data ++ specTplC.data) := by
  simp [specAnalysisPrompt, specHead, String.data_append]

set_option maxRecDepth 4000 in
/-- The spec-prompt head is at least 200 characters for every label. -/
lemma specHead_len (a : AppType) : 200 ≤ (specHead a).length := by
  cases a <;> decide

/-- The first 200 characters of a spec prompt depend only on the label. -/
lemma specPrompt_take (a : AppType) (s : String) :
    ((specAnalysisPrompt a s).data).take 200 = (specHead a).take 200 := by
  rw [specPrompt_data]
  exact List.take_append_of_le_length (specHead_len a)

set_option maxRecDepth 8000 in
/-- The first 200 characters of the spec-prompt head distinguish all seven
application-type labels. -/
lemma specHead_take_inj :
    ∀ a₁ a₂ : AppType, (specHead a₁).take 200 = (specHead a₂).take 200 → a₁ = a₂ := by
  decide

/-- The code prompt determines the language and the user code. -/
lemma codePrompt_inj (l₁ l₂ : Language) (c₁ c₂ : String)
    (h : codeAnalysisPrompt l₁ c₁ = codeAnalysisPrompt l₂ c₂) : l₁ = l₂ ∧ c₁ = c₂ := by
  have hdata := congrArg String.data h
  have hl : l₁ = l₂ := by
    apply codeHead_take_inj
    have h100 := congrArg (List.take 100) hdata
    rwa [codePrompt_take, codePrompt_take] at h100
  subst hl
  refine ⟨rfl, ?_⟩
  rw [codePrompt_data, codePrompt_data] at hdata
  have h1 := List.append_cancel_left hdata
  have h2 := List.append_cancel_left h1
  have h3 := List.append_cancel_left h2
  exact String.ext (List.append_cancel_right h3)

/-- The spec prompt determines the application type and the user text. -/
lemma specPrompt_inj (a₁ a₂ : AppType) (s₁ s₂ : String)
    (h : specAnalysisPrompt a₁ s₁ = specAnalysisPrompt a₂ s₂) : a₁ = a₂ ∧ s₁ = s₂ := by
  have hdata := congrArg String.data h
  have ha : a₁ = a₂ := by
    apply specHead_take_inj
    have h200 := congrArg (List.take 200) hdata
    rwa [specPrompt_take, specPrompt_take] at h200
  subst ha
  refine ⟨rfl, ?_⟩
  rw [specPrompt_data, specPrompt_data] at hdata
  have h1 := List.append_cancel_left hdata
  exact String.ext (List.append_cancel_right h1)

/-- Neither handler ever writes the resolved context back. -/
lemma handleRequest_fst (generate : String → String → Except String String)
    (ctx : AppContext) (req : Request) : (handleRequest generate ctx req).1 = ctx := by
  cases req <;> rfl

/-- A whole session leaves the resolved context exactly as startup set it. -/
lemma runRequests_fst (generate : String → String → Except String String)
    (ctx : AppContext) (reqs : List Request) : (runRequests generate ctx reqs).1 = ctx := by
  induction reqs generalizing ctx with
  | nil => rfl
  | cons r rs ih => simp [runRequests, handleRequest_fst, ih]

/-- Every call a session dispatches goes to the model resolved at startup. -/
lemma runRequests_calls (generate : String → String → Except String String)
    (ctx : AppContext) (reqs : List Request) :
    ∀ q ∈ (runRequests generate ctx reqs).2, q.1 = ctx.model_name := by
  induction reqs generalizing ctx with
  | nil => simp [runRequests]
  | cons r rs ih =>
    intro q hq
    simp only [runRequests] at hq
    rcases List.mem_append.mp hq with h' | h'
    · have hq2 : ∃ p, q = (ctx.model_name, p) := by
        cases r with
        | codeReq l c =>
          simp only [handleRequest] at h'
          rcases List.mem_map.mp h' with ⟨p, _, hp⟩
          exact ⟨p, hp.symm⟩
        | specReq a s =>
          simp only [handleRequest] at h'
          rcases List.mem_map.mp h' with ⟨p, _, hp⟩
          exact ⟨p, hp.symm⟩
      rcases hq2 with ⟨p, rfl⟩
      rfl
    · rw [handleRequest_fst] at h'
      exact ih ctx q h'

/-- A remote service for the spec's scenario: instantiation always
succeeds, only the probe of m2 responds, discovery is empty. -/
def envM2 : RemoteEnv :=
  ⟨fun _ => true,
   fun n => if n = "m2" then Except.ok true else Except.error ("unavailable"),
   []⟩

/-- A remote service where every probe raises and discovery lists two
capability-qualified models. -/
def envDisc : RemoteEnv :=
  ⟨fun _ => true, fun _ => Except.error ("unavailable"),
   [⟨"models/disc-a", ["generateContent"]⟩, ⟨"models/disc-b", ["generateContent"]⟩]⟩

/-- A remote service where every probe raises and discovery is empty. -/
def envEmpty : RemoteEnv :=
  ⟨fun _ => true, fun _ => Except.error ("unavailable"), []⟩

/-- A stub content-generation call that always raises. -/
def genErr : String → Except String String := fun _ => Except.error ("quota exhausted")

/-- A stub two-argument content-generation call that always succeeds. -/
def genOk : String → String → Except String String := fun _ _ => Except.ok ("report")

/-- C1: in every run where at least one candidate of the ordered preference
list passes both instantiation and the liveness probe, resolution (a total
function, so it terminates) selects the first such candidate in list order
as the resolved model, the discovery fallback is never consulted, and no
later candidate is attempted: the loop's call trace consists of the
attempts on the rejected candidates before it followed by the attempt on
the selected candidate, and is the whole trace of resolution. -/
theorem C1_resolver_first_success (env : RemoteEnv) (l : List String) (c : String)
    (h : l.find? (tryCandidate env) = some c) :
    (resolveModelTrace env l).1 = Except.ok c ∧
    (resolveModelTrace env l).2 =
      attemptsOf env (l.takeWhile (fun x => !tryCandidate env x)) ++ attemptCalls env c := by
  have h1 : (resolveLoopTrace env l).1 = some c := by
    rw [resolveLoop_fst]
    exact h
  constructor
  · simp [resolveModelTrace, h1]
  · simp only [resolveModelTrace, h1]
    exact resolveLoop_snd_found env l c h

/-- Witness for C1 at the spec's scenario: candidates m1 and m2, the probe
of m1 raises, m2 responds: m2 is selected. -/
theorem C1_resolver_first_success_witness :
    (resolveModelTrace envM2 (["m1", "m2"])).1 = Except.ok ("m2") :=
  (C1_resolver_first_success envM2 (["m1", "m2"]) ("m2") (by decide)).1

/-- C2: in every run where every preference-list candidate fails and the
discovery listing of capability-qualified models is non-empty, resolution
selects the first entry of that listing, in the order the service returned
it; the fallback adds only the listing call and one instantiation to the
trace - no liveness probe - and every probe in the whole trace targets a
preference-list candidate only. -/
theorem C2_discovery_first_unprobed (env : RemoteEnv) (l : List String) (a : String)
    (rest : List String) (hfail : ∀ c ∈ l, tryCandidate env c = false)
    (hdisc : availableModels env = a :: rest) :
    (resolveModelTrace env l).1 = Except.ok a ∧
    (resolveModelTrace env l).2 =
      (resolveLoopTrace env l).2 ++ [NetCall.listModels, NetCall.instantiate a] ∧
    (∀ n, NetCall.probe n ∈ (resolveModelTrace env l).2 → n ∈ l) := by
  have h1 := resolveLoop_fst_none env l hfail
  refine ⟨by simp [resolveModelTrace, h1, hdisc], by simp [resolveModelTrace, h1, hdisc], ?_⟩
  intro n hn
  simp only [resolveModelTrace, h1, hdisc] at hn
  rcases List.mem_append.mp hn with h' | h'
  · exact probe_mem_loop env l n h'
  · simp at h'

/-- Witness for C2 at the spec's scenario: both candidates fail and
discovery lists disc-a then disc-b: disc-a is selected. -/
theorem C2_discovery_first_unprobed_witness :
    (resolveModelTrace envDisc (["m1", "m2"])).1 = Except.ok ("models/disc-a") :=
  (C2_discovery_first_unprobed envDisc (["m1", "m2"]) ("models/disc-a")
    (["models/disc-b"]) (by decide) (by decide)).1

/-- C3: in every run where every candidate fails and discovery yields no
capability-qualified model, resolution fails with the no-compatible-model
condition, startup halts showing that error, and the halted process
dispatches no analysis request at all. -/
theorem C3_no_compatible_model_halts (env : RemoteEnv)
    (generate : String → String → Except String String)
    (key : String) (reqs : List Request) (hkey : key ≠ "")
    (hfail : ∀ c ∈ models_to_try, tryCandidate env c = false)
    (hdisc : availableModels env = []) :
    (resolveModelTrace env models_to_try).1 = Except.error ResolveError.noCompatibleModels ∧
    (startup env (some key)).1 = StartupOutcome.haltedInitError ("No compatible models found") ∧
    appRun env generate (some key) reqs =
      (StartupOutcome.haltedInitError ("No compatible models found"), []) := by
  have h1 := resolveLoop_fst_none env models_to_try hfail
  have h2 : (resolveModelTrace env models_to_try).1 =
      Except.error ResolveError.noCompatibleModels := by
    simp [resolveModelTrace, h1, hdisc]
  refine ⟨h2, ?_, ?_⟩
  · simp [startup, hkey, h2]
  · simp [appRun, startup, hkey, h2]

/-- Witness for C3: every probe raises and discovery is empty, so the run
halts with the no-compatible-model error and dispatches nothing. -/
theorem C3_no_compatible_model_halts_witness :
    appRun envEmpty genOk (some ("k")) [] =
      (StartupOutcome.haltedInitError ("No compatible models found"), []) :=
  (C3_no_compatible_model_halts envEmpty genOk ("k") [] (by decide) (by decide)
    (by decide)).2.2

/-- C4: an absent or empty credential halts startup with the
missing-credential condition before any remote call - the call trace is
empty - while any non-empty credential proceeds to configure the remote
client with exactly that credential as the first call. -/
theorem C4_missing_credential_halts (env : RemoteEnv) (apiKey : Option String)
    (hkey : apiKey = none ∨ apiKey = some "") :
    startup env apiKey = (StartupOutcome.haltedMissingCredential, []) ∧
    ∀ k : String, k ≠ "" → (startup env (some k)).2.head? = some (NetCall.configure k) := by
  constructor
  · rcases hkey with rfl | rfl
    · rfl
    · rfl
  · intro k hk
    cases hr : (resolveModelTrace env models_to_try).1 <;> simp [startup, hk, hr]

/-- Witness for C4 at the empty credential: startup halts with no call. -/
theorem C4_missing_credential_halts_witness :
    startup envEmpty (some ("")) = (StartupOutcome.haltedMissingCredential, []) :=
  (C4_missing_credential_halts envEmpty (some ("")) (Or.inr rfl)).1

/-- C5: a candidate whose instantiation or probe fails is silently skipped:
the loop's selection over the remaining candidates is unchanged, resolution
as a whole is unchanged, and a per-candidate failure is never surfaced -
the only error resolution can produce is the no-compatible-model condition,
and it occurs exactly when every candidate failed and discovery is empty. -/
theorem C5_candidate_failures_swallowed (env : RemoteEnv) (c : String) (rest : List String)
    (hfail : tryCandidate env c = false) :
    (resolveLoopTrace env (c :: rest)).1 = (resolveLoopTrace env rest).1 ∧
    (resolveModelTrace env (c :: rest)).1 = (resolveModelTrace env rest).1 ∧
    (∀ l err, (resolveModelTrace env l).1 = Except.error err →
      err = ResolveError.noCompatibleModels ∧
      (∀ d ∈ l, tryCandidate env d = false) ∧ availableModels env = []) := by
  have h1 : (resolveLoopTrace env (c :: rest)).1 = (resolveLoopTrace env rest).1 := by
    simp [resolveLoopTrace, hfail]
  refine ⟨h1, ?_, ?_⟩
  · cases h2 : (resolveLoopTrace env rest).1 with
    | some d => simp [resolveModelTrace, h1, h2]
    | none => cases h3 : availableModels env <;> simp [resolveModelTrace, h1, h2, h3]
  · intro l err herr
    cases h2 : (resolveLoopTrace env l).1 with
    | some d => simp [resolveModelTrace, h2] at herr
    | none =>
      cases h3 : availableModels env with
      | cons n ns => simp [resolveModelTrace, h2, h3] at herr
      | nil =>
        simp only [resolveModelTrace, h2, h3] at herr
        have h4 : ∀ d ∈ l, tryCandidate env d = false := by
          rw [resolveLoop_fst] at h2
          intro d hd
          have h5 := List.find?_eq_none.mp h2 d hd
          simpa using h5
        have h6 : err = ResolveError.noCompatibleModels := by
          cases err
          rfl
        exact ⟨h6, h4, rfl⟩

/-- Witness for C5: skipping the failing candidate m1 leaves the loop's
selection over the remaining list unchanged. -/
theorem C5_candidate_failures_swallowed_witness :
    (resolveLoopTrace envM2 (["m1", "m2"])).1 = (resolveLoopTrace envM2 (["m2"])).1 :=
  (C5_candidate_failures_swallowed envM2 ("m1") (["m2"]) (by decide)).1

/-- C6: when the remote content-generation call raises, the invoker returns
a failure (it is total, so no exception escapes) whose message carries the
raised error's description as a substring, and the call is dispatched
exactly once - the trace is the single prompt, so nothing is retried. -/
theorem C6_invoker_failure_absorbed (generate : String → Except String String)
    (prompt e : String) (h : generate prompt = Except.error e) :
    invokeAnalysis generate prompt =
      (AnalysisResult.failure ("Error during analysis: " ++ e), [prompt]) ∧
    (∃ u v : List Char, ("Error during analysis: " ++ e).data = u ++ (e.data ++ v)) := by
  refine ⟨by simp [invokeAnalysis, h], ?_⟩
  exact ⟨("Error during analysis: ").data, [], by simp [String.data_append]⟩

/-- Witness for C6: a stub that always raises yields the inline failure
with the stub's description, dispatched once. -/
theorem C6_invoker_failure_absorbed_witness :
    invokeAnalysis genErr ("p") =
      (AnalysisResult.failure ("Error during analysis: " ++ "quota exhausted"), ["p"]) :=
  (C6_invoker_failure_absorbed genErr ("p") ("quota exhausted") rfl).1

/-- C7: for non-empty user text, each prompt builder embeds the user text
verbatim as a contiguous substring (and the code builder also embeds the
literal language label), and distinct (category, text) inputs never produce
an identical prompt: each builder is injective in both arguments. -/
theorem C7_prompt_verbatim_and_injective (l₁ l₂ : Language) (a₁ a₂ : AppType)
    (c₁ c₂ s₁ s₂ : String) (_hc : c₁ ≠ "") (_hs : s₁ ≠ "") :
    (∃ u v : List Char, (codeAnalysisPrompt l₁ c₁).data = u ++ (c₁.data ++ v)) ∧
    (∃ u v : List Char, (codeAnalysisPrompt l₁ c₁).data = u ++ ((l₁.label).data ++ v)) ∧
    (∃ u v : List Char, (specAnalysisPrompt a₁ s₁).data = u ++ (s₁.data ++ v)) ∧
    (codeAnalysisPrompt l₁ c₁ = codeAnalysisPrompt l₂ c₂ → l₁ = l₂ ∧ c₁ = c₂) ∧
    (specAnalysisPrompt a₁ s₁ = specAnalysisPrompt a₂ s₂ → a₁ = a₂ ∧ s₁ = s₂) := by
  refine ⟨?_, ?_, ?_, codePrompt_inj l₁ l₂ c₁ c₂, specPrompt_inj a₁ a₂ s₁ s₂⟩
  · exact ⟨codeHead l₁ ++ (l₁.label.toLower.data ++ ("\n").data),
      codeTplC.data ++ (l₁.label.toLower.data ++ codeTplD.data),
      by rw [codePrompt_data]; simp⟩
  · exact ⟨codeTplA.data,
      codeTplB.data ++ (l₁.label.toLower.data ++ (("\n").data ++ (c₁.data ++
        (codeTplC.data ++ (l₁.label.toLower.data ++ codeTplD.data))))),
      by rw [codePrompt_data]; simp [codeHead]⟩
  · exact ⟨specHead a₁, specTplC.data, by rw [specPrompt_data]⟩

/-- Witness for C7: the SQL code prompt embeds the submitted query
verbatim. -/
theorem C7_prompt_verbatim_and_injective_witness :
    ∃ u v : List Char,
      (codeAnalysisPrompt Language.sql ("SELECT * FROM users")).data =
        u ++ (("SELECT * FROM users" : String).data ++ v) :=
  (C7_prompt_verbatim_and_injective Language.sql Language.python AppType.chatbot
    AppType.chatbot ("SELECT * FROM users") ("x") ("a support chatbot") ("y")
    (by decide) (by decide)).1

/-- C8: a submission whose text is empty or all whitespace is rejected with
the tab's warning and nothing is built or dispatched: the handler returns
before the prompt builder runs and its dispatch trace is empty, in both
forms. -/
theorem C8_blank_input_rejected (generate : String → Except String String)
    (language : Language) (app_type : AppType) (c s : String)
    (hc : stripIsEmpty c = true) (hs : stripIsEmpty s = true) :
    tab1Submit generate language c =
      (SubmitOutcome.warned ("Please enter some code to analyze."), []) ∧
    tab2Submit generate app_type s =
      (SubmitOutcome.warned ("Please enter your application specifications."), []) := by
  constructor
  · simp [tab1Submit, hc]
  · simp [tab2Submit, hs]

/-- Witness for C8: whitespace-only inputs in both forms are warned away
with an empty dispatch trace. -/
theorem C8_blank_input_rejected_witness :
    tab1Submit genErr Language.python ("  ") =
      (SubmitOutcome.warned ("Please enter some code to analyze."), []) :=
  (C8_blank_input_rejected genErr Language.python AppType.chatbot ("  ") ("\n\t ")
    (by decide) (by decide)).1

/-- C9: the resolved model is never reassigned after startup: a whole
session of requests leaves the context exactly as resolution set it, every
dispatched call routes through that context's model name, and a single
request - including one whose remote call fails - returns the context
unchanged. -/
theorem C9_resolved_model_immutable (generate : String → String → Except String String)
    (ctx : AppContext) (reqs : List Request) (req : Request) :
    (runRequests generate ctx reqs).1 = ctx ∧
    (∀ q ∈ (runRequests generate ctx reqs).2, q.1 = ctx.model_name) ∧
    (handleRequest generate ctx req).1 = ctx :=
  ⟨runRequests_fst generate ctx reqs, runRequests_calls generate ctx reqs,
   handleRequest_fst generate ctx req⟩

/-- Witness for C9 at a concrete session. -/
theorem C9_resolved_model_immutable_witness :
    (runRequests genOk ⟨("gemini-pro")⟩ [Request.codeReq Language.python ("print(1)")]).1 =
      (⟨("gemini-pro")⟩ : AppContext) :=
  (C9_resolved_model_immutable genOk ⟨("gemini-pro")⟩
    [Request.codeReq Language.python ("print(1)")]
    (Request.specReq AppType.chatbot ("x"))).1

/-- C10: a whitespace-only credential passes the startup check: the run
does not halt with the missing-credential condition and its first remote
action configures the client with that very credential; the
missing-credential halt occurs only for an absent value or the exact empty
string. -/
theorem C10_whitespace_credential_passes (env : RemoteEnv) (key : String)
    (_hws : stripIsEmpty key = true) (hne : key ≠ "") :
    (startup env (some key)).1 ≠ StartupOutcome.haltedMissingCredential ∧
    (startup env (some key)).2.head? = some (NetCall.configure key) ∧
    (∀ k : String, (startup env (some k)).1 = StartupOutcome.haltedMissingCredential → k = "") ∧
    (startup env none).1 = StartupOutcome.haltedMissingCredential := by
  refine ⟨?_, ?_, ?_, rfl⟩
  · cases hr : (resolveModelTrace env models_to_try).1 <;> simp [startup, hne, hr]
  · cases hr : (resolveModelTrace env models_to_try).1 <;> simp [startup, hne, hr]
  · intro k hk
    by_cases h : k = ""
    · exact h
    · exfalso
      cases hr : (resolveModelTrace env models_to_try).1 <;> simp [startup, h, hr] at hk

/-- Witness for C10: the single-space credential proceeds to configure the
client. -/
theorem C10_whitespace_credential_passes_witness :
    (startup envEmpty (some (" "))).2.head? = some (NetCall.configure (" ")) :=
  (C10_whitespace_credential_passes envEmpty (" ") (by decide) (by decide)).2.1

end SecurityHelperApp
